import Mathlib

/-!
Shallow embedding of `src/server/artwork.py` (artwork CRUD service of the
art-exhibit-hub repository) and proofs about its specified behaviour.

Python values that flow through the service (JSON payload entries, database
cells, token claims) are modelled by `PyVal`; Python dicts of request data by
association lists; the `artworks` table by a list of rows.  External
collaborators that are out of scope for the module (the token extractor and
verifier from `middleware`, the `utils` image store, base64 decoding, the
clock, uuid generation and the filesystem) are passed in as parameters, so
every theorem quantifies over their behaviour.
-/

set_option maxHeartbeats 1000000

namespace Artwork

/-- A dynamically typed Python value (the subset the module manipulates). -/
inductive PyVal where
  | none
  | int (n : Int)
  | str (s : String)
  | bool (b : Bool)
deriving DecidableEq, Repr

/-- Python `str(v)` for the values above (`str(None) = "None"`). -/
def pyStr : PyVal → String
  | PyVal.none => "None"
  | PyVal.int n => toString n
  | PyVal.str s => s
  | PyVal.bool b => if b then "True" else "False"

/-- Python truthiness of a value (`if v:`). -/
def pyTruthy : PyVal → Bool
  | PyVal.none => false
  | PyVal.int n => n ≠ 0
  | PyVal.str s => s ≠ ""
  | PyVal.bool b => b

/-- Python `s.startswith(pre)`. -/
def startswith (s pre : String) : Bool :=
  pre.data.isPrefixOf s.data

/-- Python `os.path.basename`: the part of the path after the last slash. -/
def basename (s : String) : String :=
  String.mk ((s.data.reverse.takeWhile (fun c => c ≠ '/')).reverse)

/-- Does `pat` occur as a contiguous run inside the character list? -/
def containsAux (pat : List Char) : List Char → Bool
  | [] => pat.isPrefixOf []
  | c :: t => pat.isPrefixOf (c :: t) || containsAux pat t

/-- Python `pat in s` for strings: substring containment. -/
def containsSubstr (s pat : String) : Bool :=
  containsAux pat.data s.data

/-- Python `s.split(sep, 1)` on characters: `none` when `sep` is absent
(where the unpacking `a, b = ...` would raise ValueError), otherwise the
parts before and after the first occurrence. -/
def splitFirstChar (sep : Char) : List Char → Option (List Char × List Char)
  | [] => Option.none
  | c :: t =>
    if c = sep then some ([], t)
    else
      match splitFirstChar sep t with
      | Option.none => Option.none
      | some (a, b) => some (c :: a, b)

/-- The characters after the first occurrence of `pat`, `none` when `pat`
does not occur (where Python's `split(pat)[1]` would raise IndexError). -/
def afterFirst (pat : List Char) : List Char → Option (List Char)
  | [] => if pat.isPrefixOf [] then some [] else Option.none
  | c :: t =>
    if pat.isPrefixOf (c :: t) then some ((c :: t).drop pat.length)
    else afterFirst pat t

/-- Characters up to the next occurrence of `marker` or a semicolon: the
effect of Python's `.split('data:image/')[1].split(';')[0]` on the tail
after the first marker. -/
def takeFormat (marker : List Char) : List Char → List Char
  | [] => []
  | c :: t =>
    if marker.isPrefixOf (c :: t) then []
    else if c = ';' then []
    else c :: takeFormat marker t

/-- A request-body dict: association list from keys to Python values. -/
abbrev Data := List (String × PyVal)

/-- Python `k in d`. -/
def Data.hasKey (d : Data) (k : String) : Bool :=
  (d.find? (fun p => p.1 = k)).isSome

/-- Python `d.get(k, default)` (and `d[k]` with default `PyVal.none` once
`hasKey` has been checked). -/
def Data.getD (d : Data) (k : String) (default : PyVal) : PyVal :=
  match d.find? (fun p => p.1 = k) with
  | Option.none => default
  | some p => p.2

/-- Verified token claims: `payload.get("is_admin", False)`,
`payload.get("is_artist", False)` and `payload.get("sub")`. -/
structure Claims where
  is_admin : Bool
  is_artist : Bool
  sub : PyVal
deriving DecidableEq, Repr

/-- A stored row of the `artworks` table (columns in the table's order;
every cell is a Python value, `id` included, mirroring the untyped cursor
rows the module receives). -/
structure Row where
  id : PyVal
  title : PyVal
  artist : PyVal
  description : PyVal
  price : PyVal
  image_url : PyVal
  dimensions : PyVal
  medium : PyVal
  year : PyVal
  status : PyVal
  artist_id : PyVal
deriving DecidableEq, Repr

/-- The `artworks` table. -/
abbrev DB := List Row

/-- The dict returned for one artwork by the read operations
(`artwork['id'] = str(artwork['id'])` stringifies the id). -/
structure ArtworkOut where
  id : String
  title : PyVal
  artist : PyVal
  description : PyVal
  price : PyVal
  image_url : PyVal
  dimensions : PyVal
  medium : PyVal
  year : PyVal
  status : PyVal
  artist_id : PyVal
deriving DecidableEq, Repr

/-- Row → returned dict, before any image-url formatting. -/
def rowToOut (r : Row) : ArtworkOut :=
  { id := pyStr r.id, title := r.title, artist := r.artist,
    description := r.description, price := r.price, image_url := r.image_url,
    dimensions := r.dimensions, medium := r.medium, year := r.year,
    status := r.status, artist_id := r.artist_id }

/-- The image-url rewriting inlined in `get_all_artworks` (lines 99–100) and
in the `elif` branch of `get_artwork` (lines 58–59): `None` passes through,
a path already under `/static/` passes through, anything else is rewritten
to `/static/uploads/<basename>`.  (The spec calls this `normalize_path`; the
empty string is falsy in Python, so it also passes through.) -/
def normalize_path : Option String → Option String
  | Option.none => Option.none
  | some s =>
    if s ≠ "" ∧ startswith s "/static/" = false then
      some ("/static/uploads/" ++ basename s)
    else
      some s

/-- Format-and-body extraction inside `save_image_from_base64`
(lines 402–405): if the string contains `data:image/`, Python does
`header, base64_data = base64_data.split(',', 1)` (ValueError when there is
no comma) and `header.split('data:image/')[1].split(';')[0]` (IndexError
when the marker sits after the comma); both exceptions are caught by the
surrounding `except`, modelled as `Option.none` here.  Without the marker the
format defaults to `jpg` and the whole string is decoded. -/
def parseDataUri (base64_data : String) : Option (String × String) :=
  if containsSubstr base64_data "data:image/" then
    match splitFirstChar ',' base64_data.data with
    | Option.none => Option.none
    | some (header, rest) =>
      match afterFirst ("data:image/".data) header with
      | Option.none => Option.none
      | some tail =>
        some (String.mk (takeFormat ("data:image/".data) tail),
          String.mk rest)
  else
    some ("jpg", base64_data)

/-- `save_image_from_base64` (lines 389–430).  `b64decode` models Python's
(lenient) `base64.b64decode`, returning `none` where it would raise;
`timestamp` is `datetime.now().strftime('%Y%m%d%H%M%S')`; `uuid4` is
`str(uuid.uuid4())`, truncated to 8 characters by the code; `write_ok` is
false when creating the uploads directory or writing the file would raise.
Every exception is caught by the function's `except`, which returns `None`. -/
def save_image_from_base64 (b64decode : String → Option (List Nat))
    (timestamp uuid4 : String) (write_ok : Bool) (base64_data : String) :
    Option String :=
  if startswith base64_data "data:" = false then Option.none
  else
    match parseDataUri base64_data with
    | Option.none => Option.none
    | some (image_format, body) =>
      match b64decode body with
      | Option.none => Option.none
      | some _ =>
        if write_ok then
          some ("/static/uploads/artwork_" ++ timestamp ++ "_" ++
            uuid4.take 8 ++ "." ++ image_format)
        else Option.none

/-- The authentication prologue shared verbatim by `create_artwork`,
`update_artwork` and `delete_artwork` (e.g. lines 213–227):
`extract_auth_token` (`if not token:` also rejects an empty token),
`verify_token` (an error dict is propagated), then the admin-or-artist role
check.  `extractTok` and `verifyTok` model the `middleware` collaborators. -/
def authenticate (extractTok : String → Option String)
    (verifyTok : String → Except String Claims) (auth_header : String) :
    Except String Claims :=
  match extractTok auth_header with
  | Option.none => Except.error "Authentication required"
  | some token =>
    if token = "" then Except.error "Authentication required"
    else
      match verifyTok token with
      | Except.error e => Except.error e
      | Except.ok payload =>
        if payload.is_admin || payload.is_artist then Except.ok payload
        else Except.error "Unauthorized: Admin or artist privileges required"

/-- The `field_map` of `update_artwork` (lines 267–276). -/
def field_map : List (String × String) :=
  [("title", "title"), ("artist", "artist"), ("description", "description"),
   ("price", "price"), ("dimensions", "dimensions"), ("medium", "medium"),
   ("year", "year"), ("status", "status")]

/-- The dynamically built SET clause of `update_artwork` (lines 262–287):
the `field_map` loop appends `(column, value)` for each input key present,
then `image_url` is appended when the image pipeline produced a truthy
path. -/
def buildUpdateFields (data : Data) (image_url : Option String) :
    List (String × PyVal) :=
  let base := field_map.foldl
    (fun acc fd =>
      if data.hasKey fd.1 then acc ++ [(fd.2, data.getD fd.1 PyVal.none)]
      else acc)
    []
  match image_url with
  | some u => if u ≠ "" then base ++ [("image_url", PyVal.str u)] else base
  | Option.none => base

/-- Effect of `SET <col> = <v>` on one row, for the columns of the
`artworks` table. -/
def Row.setCol (r : Row) (col : String) (v : PyVal) : Row :=
  if col = "id" then { r with id := v }
  else if col = "title" then { r with title := v }
  else if col = "artist" then { r with artist := v }
  else if col = "description" then { r with description := v }
  else if col = "price" then { r with price := v }
  else if col = "image_url" then { r with image_url := v }
  else if col = "dimensions" then { r with dimensions := v }
  else if col = "medium" then { r with medium := v }
  else if col = "year" then { r with year := v }
  else if col = "status" then { r with status := v }
  else if col = "artist_id" then { r with artist_id := v }
  else r

/-- Effect of a whole SET clause on one row. -/
def applyUpdate (r : Row) (fields : List (String × PyVal)) : Row :=
  fields.foldl (fun acc fv => acc.setCol fv.1 fv.2) r

/-- The image step of `update_artwork` (lines 253–260): only a truthy
`image` entry that is a string starting with `data:` or `base64,` is sent
to the `utils` image store (`saveImageUtil`); a truthy non-string raises
`AttributeError` on `.startswith`, caught by the outer `except`. -/
def updateImageStep (saveImageUtil : String → Option String) (data : Data) :
    Except String (Option String) :=
  if pyTruthy (data.getD "image" PyVal.none) then
    match data.getD "image" PyVal.none with
    | PyVal.str s =>
      if startswith s "data:" || startswith s "base64," then
        Except.ok (saveImageUtil s)
      else Except.ok Option.none
    | _ => Except.error "AttributeError: startswith"
  else Except.ok Option.none

/-- `update_artwork` (lines 206–318) as a state-passing function: the pair
returned is (HTTP-level result, table after the call).  `connOk` models
`get_db_connection()` succeeding; the row lookup models
`SELECT * FROM artworks WHERE id = %s` with `fetchone`; `rowcount` follows
MySQL's changed-rows semantics (a matched row whose values are unchanged is
not counted), which is what the "No changes" branch reacts to. -/
def update_artwork (extractTok : String → Option String)
    (verifyTok : String → Except String Claims)
    (saveImageUtil : String → Option String) (connOk : Bool) (db : DB)
    (auth_header : String) (artwork_id : Int) (data : Data) :
    Except String Int × DB :=
  match authenticate extractTok verifyTok auth_header with
  | Except.error e => (Except.error e, db)
  | Except.ok payload =>
    if connOk = false then (Except.error "Database connection failed", db)
    else
      match db.find? (fun r => r.id = PyVal.int artwork_id) with
      | Option.none =>
        (Except.error
          ("Artwork with ID " ++ toString artwork_id ++ " not found"), db)
      | some row =>
        if payload.is_artist ∧ payload.is_admin = false ∧
            pyStr row.artist_id ≠ pyStr payload.sub then
          (Except.error "Unauthorized: You can only update your own artworks",
            db)
        else
          match updateImageStep saveImageUtil data with
          | Except.error e => (Except.error e, db)
          | Except.ok image_url =>
            let fields := buildUpdateFields data image_url
            if fields = [] then
              (Except.error "No fields provided for update", db)
            else
              let db2 := db.map (fun r =>
                if r.id = PyVal.int artwork_id then applyUpdate r fields
                else r)
              let rowcount := (db.filter (fun r =>
                r.id = PyVal.int artwork_id ∧ applyUpdate r fields ≠ r)).length
              if rowcount = 0 then
                (Except.error "No changes were made to the artwork", db2)
              else (Except.ok artwork_id, db2)

/-- `delete_artwork` (lines 320–386), same conventions as
`update_artwork`. -/
def delete_artwork (extractTok : String → Option String)
    (verifyTok : String → Except String Claims) (connOk : Bool) (db : DB)
    (auth_header : String) (artwork_id : Int) : Except String Unit × DB :=
  match authenticate extractTok verifyTok auth_header with
  | Except.error e => (Except.error e, db)
  | Except.ok payload =>
    if connOk = false then (Except.error "Database connection failed", db)
    else
      match db.find? (fun r => r.id = PyVal.int artwork_id) with
      | Option.none =>
        (Except.error
          ("Artwork with ID " ++ toString artwork_id ++ " not found"), db)
      | some row =>
        if payload.is_artist ∧ payload.is_admin = false ∧
            pyStr row.artist_id ≠ pyStr payload.sub then
          (Except.error "Unauthorized: You can only delete your own artworks",
            db)
        else
          let rowcount :=
            (db.filter (fun r => r.id = PyVal.int artwork_id)).length
          let db2 := db.filter (fun r => ¬ r.id = PyVal.int artwork_id)
          if rowcount = 0 then
            (Except.error "Failed to delete the artwork", db2)
          else (Except.ok (), db2)

/-- `create_artwork` (lines 114–204).  `newId` models the auto-increment id
(`cursor.lastrowid`); `saveImageUtil` models `utils.save_image_from_base64`
(not in this module), applied to whatever value sits under `image` —
modelled from the spec as total: path or `None`, never raising. -/
def create_artwork (extractTok : String → Option String)
    (verifyTok : String → Except String Claims)
    (saveImageUtil : PyVal → Option String) (connOk : Bool) (newId : Int)
    (db : DB) (auth_header : String) (data : Data) : Except String Int × DB :=
  match authenticate extractTok verifyTok auth_header with
  | Except.error e => (Except.error e, db)
  | Except.ok payload =>
    if connOk = false then (Except.error "Database connection failed", db)
    else
      let artist_id :=
        if payload.is_artist then payload.sub
        else if data.hasKey "artist_id" then data.getD "artist_id" PyVal.none
        else PyVal.none
      if pyTruthy (data.getD "title" PyVal.none) = false then
        (Except.error "Missing required field: title", db)
      else if pyTruthy (data.getD "price" PyVal.none) = false then
        (Except.error "Missing required field: price", db)
      else
        let image_url : Option String :=
          if pyTruthy (data.getD "image" PyVal.none) then
            saveImageUtil (data.getD "image" PyVal.none)
          else Option.none
        let row : Row :=
          { id := PyVal.int newId,
            title := data.getD "title" (PyVal.str ""),
            artist := data.getD "artist" (PyVal.str ""),
            description := data.getD "description" (PyVal.str ""),
            price := data.getD "price" (PyVal.int 0),
            image_url := match image_url with
              | some p => PyVal.str p
              | Option.none => PyVal.none,
            dimensions := data.getD "dimensions" (PyVal.str ""),
            medium := data.getD "medium" (PyVal.str ""),
            year := data.getD "year" (PyVal.str ""),
            status := data.getD "status" (PyVal.str "available"),
            artist_id := artist_id }
        (Except.ok newId, db ++ [row])

/-- Per-row formatting in `get_all_artworks` (lines 90–102): stringify the
id, then `if artwork['image_url'] and not ...startswith('/static/')`
rewrite through `normalize_path`.  A truthy non-string `image_url` raises
`AttributeError`, caught by the function's `except`. -/
def formatArtwork (r : Row) : Except String ArtworkOut :=
  let out := rowToOut r
  if pyTruthy r.image_url then
    match r.image_url with
    | PyVal.str s =>
      Except.ok { out with
        image_url := PyVal.str ((normalize_path (some s)).getD s) }
    | _ => Except.error "AttributeError: startswith"
  else Except.ok out

/-- The row loop of `get_all_artworks`: the first exception aborts the whole
call. -/
def formatAll : DB → Except String (List ArtworkOut)
  | [] => Except.ok []
  | r :: rs =>
    match formatArtwork r with
    | Except.error e => Except.error e
    | Except.ok a =>
      match formatAll rs with
      | Except.error e => Except.error e
      | Except.ok rest => Except.ok (a :: rest)

/-- `get_all_artworks` (lines 71–112): a SELECT plus in-memory formatting;
the table is returned unchanged. -/
def get_all_artworks (connOk : Bool) (db : DB) :
    Except String (List ArtworkOut) × DB :=
  if connOk = false then (Except.error "Database connection failed", db)
  else
    match formatAll db with
    | Except.error e => (Except.error e, db)
    | Except.ok arts => (Except.ok arts, db)

/-- `update_artwork_image` (lines 432–455): rewrite the `image_url` column
of the matching rows; `connOk2` models its own `get_db_connection()` (the
caller ignores the returned boolean, so on failure the table is simply left
unchanged). -/
def update_artwork_image (connOk2 : Bool) (db : DB) (artwork_id : PyVal)
    (image_path : String) : DB :=
  if connOk2 = false then db
  else db.map (fun r =>
    if r.id = artwork_id then { r with image_url := PyVal.str image_path }
    else r)

/-- `get_artwork` (lines 9–69).  When the stored `image_url` is an inline
payload (`data:` or `base64,` prefix) the module tries the lazy migration:
`save_image_from_base64` (the module's own copy, lines 389–430), then
`update_artwork_image`, and only on a truthy saved path is the value
replaced — on failure the raw payload is returned as-is.  Other non-
`/static/` paths are rewritten in the returned copy only. -/
def get_artwork (b64decode : String → Option (List Nat))
    (timestamp uuid4 : String) (write_ok : Bool) (connOk connOk2 : Bool)
    (db : DB) (artwork_id : Int) : Except String ArtworkOut × DB :=
  if connOk = false then (Except.error "Database connection failed", db)
  else
    match db.find? (fun r => r.id = PyVal.int artwork_id) with
    | Option.none => (Except.error "Artwork not found", db)
    | some r =>
      let out := rowToOut r
      if pyTruthy r.image_url then
        match r.image_url with
        | PyVal.str s =>
          if startswith s "data:" || startswith s "base64," then
            match save_image_from_base64 b64decode timestamp uuid4 write_ok s
            with
            | some p =>
              if p ≠ "" then
                (Except.ok { out with image_url := PyVal.str p },
                  update_artwork_image connOk2 db r.id p)
              else (Except.ok out, db)
            | Option.none => (Except.ok out, db)
          else if startswith s "/static/" = false then
            (Except.ok { out with
              image_url := PyVal.str ("/static/uploads/" ++ basename s) }, db)
          else (Except.ok out, db)
        | _ => (Except.error "AttributeError: startswith", db)
      else (Except.ok out, db)

/-! ### Helper lemmas -/

lemma isPrefixOf_self_append (l t : List Char) : l.isPrefixOf (l ++ t) = true := by
  induction l with
  | nil => simp [List.isPrefixOf]
  | cons c cs ih => simp [List.isPrefixOf, ih]

lemma isPrefixOf_mono (l : List Char) :
    ∀ (m t : List Char), l.isPrefixOf m = true → l.isPrefixOf (m ++ t) = true := by
  intro m t h
  rw [List.isPrefixOf_iff_prefix] at h ⊢
  exact h.trans (List.prefix_append m t)

lemma startswith_append (p t : String) : startswith (p ++ t) p = true := by
  unfold startswith
  rw [String.data_append]
  exact isPrefixOf_self_append p.data t.data

lemma startswith_mono (a b pre : String) (h : startswith a pre = true) :
    startswith (a ++ b) pre = true := by
  unfold startswith at h ⊢
  rw [String.data_append]
  exact isPrefixOf_mono pre.data a.data b.data h

lemma startswith_static_uploads (b : String) :
    startswith ("/static/uploads/" ++ b) "/static/" = true :=
  startswith_mono "/static/uploads/" b "/static/" (by decide)

lemma authenticate_required (extractTok : String → Option String)
    (verifyTok : String → Except String Claims) (auth_header : String)
    (h : extractTok auth_header = Option.none ∨ extractTok auth_header = some "") :
    authenticate extractTok verifyTok auth_header
      = Except.error "Authentication required" := by
  rcases h with h | h <;> simp [authenticate, h]

lemma updateImageStep_error (saveImageUtil : String → Option String)
    (data : Data) (e : String)
    (h : updateImageStep saveImageUtil data = Except.error e) :
    e = "AttributeError: startswith" := by
  unfold updateImageStep at h
  split at h
  all_goals try split at h
  all_goals try split at h
  all_goals (cases h <;> try rfl)

lemma update_after_ownership (extractTok : String → Option String)
    (verifyTok : String → Except String Claims)
    (saveImageUtil : String → Option String) (db : DB) (auth_header : String)
    (artwork_id : Int) (data : Data) (payload : Claims) (row : Row)
    (hauth : authenticate extractTok verifyTok auth_header = Except.ok payload)
    (hrow : db.find? (fun r => r.id = PyVal.int artwork_id) = some row)
    (hnotown : ¬(payload.is_artist = true ∧ payload.is_admin = false ∧
      pyStr row.artist_id ≠ pyStr payload.sub)) :
    (update_artwork extractTok verifyTok saveImageUtil true db auth_header
        artwork_id data).1
      ≠ Except.error "Unauthorized: You can only update your own artworks" := by
  simp only [update_artwork, hauth, hrow]
  rw [if_neg (by simp)]
  rw [if_neg hnotown]
  cases himg : updateImageStep saveImageUtil data with
  | error e =>
    have he := updateImageStep_error saveImageUtil data e himg
    subst he
    simp
  | ok image_url =>
    simp only []
    by_cases hf : buildUpdateFields data image_url = []
    · rw [if_pos hf]; simp
    · rw [if_neg hf]
      by_cases hrc : (db.filter (fun r =>
          r.id = PyVal.int artwork_id ∧
            applyUpdate r (buildUpdateFields data image_url) ≠ r)).length = 0
      · rw [if_pos hrc]; simp
      · rw [if_neg hrc]; simp

lemma delete_after_ownership (extractTok : String → Option String)
    (verifyTok : String → Except String Claims) (db : DB)
    (auth_header : String) (artwork_id : Int) (payload : Claims) (row : Row)
    (hauth : authenticate extractTok verifyTok auth_header = Except.ok payload)
    (hrow : db.find? (fun r => r.id = PyVal.int artwork_id) = some row)
    (hnotown : ¬(payload.is_artist = true ∧ payload.is_admin = false ∧
      pyStr row.artist_id ≠ pyStr payload.sub)) :
    (delete_artwork extractTok verifyTok true db auth_header artwork_id).1
      ≠ Except.error "Unauthorized: You can only delete your own artworks" := by
  simp only [delete_artwork, hauth, hrow]
  rw [if_neg (by simp)]
  rw [if_neg hnotown]
  by_cases hrc : (db.filter (fun r => r.id = PyVal.int artwork_id)).length = 0
  · rw [if_pos hrc]; simp
  · rw [if_neg hrc]; simp

/-! ### Claims -/

/-- C6: the path-normalization function is idempotent: for every input
string or null, applying `normalize_path` twice yields the same result as
applying it once. -/
theorem C6_normalize_path_idempotent (x : Option String) :
    normalize_path (normalize_path x) = normalize_path x := by
  match x with
  | Option.none => rfl
  | some s =>
    by_cases h : s ≠ "" ∧ startswith s "/static/" = false
    · have h1 : normalize_path (some s)
          = some ("/static/uploads/" ++ basename s) := by
        simp only [normalize_path]; rw [if_pos h]
      rw [h1]
      simp only [normalize_path]
      rw [if_neg (by simp [startswith_static_uploads])]
    · have h1 : normalize_path (some s) = some s := by
        simp only [normalize_path]; rw [if_neg h]
      rw [h1, h1]

/-- C3: for every create, update, or delete call whose auth header yields no
extractable token (the extractor returns `None`, or an empty — falsy —
token), the operation returns the authentication-required error and the
stored table is untouched, for every payload. -/
theorem C3_unauthenticated_rejected (extractTok : String → Option String)
    (verifyTok : String → Except String Claims)
    (saveImageUtilC : PyVal → Option String)
    (saveImageUtilU : String → Option String) (connOk : Bool) (newId : Int)
    (db : DB) (auth_header : String) (artwork_id : Int)
    (dataC dataU : Data)
    (h : extractTok auth_header = Option.none ∨
      extractTok auth_header = some "") :
    create_artwork extractTok verifyTok saveImageUtilC connOk newId db
        auth_header dataC
      = (Except.error "Authentication required", db) ∧
    update_artwork extractTok verifyTok saveImageUtilU connOk db auth_header
        artwork_id dataU
      = (Except.error "Authentication required", db) ∧
    delete_artwork extractTok verifyTok connOk db auth_header artwork_id
      = (Except.error "Authentication required", db) := by
  have ha := authenticate_required extractTok verifyTok auth_header h
  refine ⟨?_, ?_, ?_⟩ <;>
    simp [create_artwork, update_artwork, delete_artwork, ha]

/-- C3 witness: a concrete header that yields no token is rejected on all
three mutations with the table (here one row would even be deletable)
unchanged. -/
theorem C3_unauthenticated_rejected_witness :
    create_artwork (fun _ => Option.none)
        (fun _ => Except.ok ⟨true, false, PyVal.none⟩) (fun _ => Option.none)
        true 5 [] "no-token"
        [("title", PyVal.str "Sunset"), ("price", PyVal.int 100)]
      = (Except.error "Authentication required", []) ∧
    update_artwork (fun _ => Option.none)
        (fun _ => Except.ok ⟨true, false, PyVal.none⟩) (fun _ => Option.none)
        true [] "no-token" 1 [("title", PyVal.str "Dawn")]
      = (Except.error "Authentication required", []) ∧
    delete_artwork (fun _ => Option.none)
        (fun _ => Except.ok ⟨true, false, PyVal.none⟩) true [] "no-token" 1
      = (Except.error "Authentication required", []) :=
  C3_unauthenticated_rejected (fun _ => Option.none)
    (fun _ => Except.ok ⟨true, false, PyVal.none⟩) (fun _ => Option.none)
    (fun _ => Option.none) true 5 [] "no-token" 1
    [("title", PyVal.str "Sunset"), ("price", PyVal.int 100)]
    [("title", PyVal.str "Dawn")] (Or.inl rfl)

/-- C1: once an update or delete call has authenticated a caller whose
claims make them an artist and not an admin, and has loaded the record, the
write happens only when `str(record.artist_id) == str(claims.sub)`; a
mismatch fails with the Unauthorized-ownership error and leaves the table
unchanged, while an admin caller never hits that error. -/
theorem C1_ownership_check (extractTok : String → Option String)
    (verifyTok : String → Except String Claims)
    (saveImageUtil : String → Option String) (db : DB) (auth_header : String)
    (artwork_id : Int) (data : Data) (payload : Claims) (row : Row)
    (hauth : authenticate extractTok verifyTok auth_header = Except.ok payload)
    (hrow : db.find? (fun r => r.id = PyVal.int artwork_id) = some row) :
    (payload.is_artist = true → payload.is_admin = false →
      pyStr row.artist_id ≠ pyStr payload.sub →
      update_artwork extractTok verifyTok saveImageUtil true db auth_header
          artwork_id data
        = (Except.error "Unauthorized: You can only update your own artworks",
            db) ∧
      delete_artwork extractTok verifyTok true db auth_header artwork_id
        = (Except.error "Unauthorized: You can only delete your own artworks",
            db)) ∧
    (pyStr row.artist_id = pyStr payload.sub →
      (update_artwork extractTok verifyTok saveImageUtil true db auth_header
          artwork_id data).1
        ≠ Except.error "Unauthorized: You can only update your own artworks" ∧
      (delete_artwork extractTok verifyTok true db auth_header artwork_id).1
        ≠ Except.error
            "Unauthorized: You can only delete your own artworks") ∧
    (payload.is_admin = true →
      (update_artwork extractTok verifyTok saveImageUtil true db auth_header
          artwork_id data).1
        ≠ Except.error "Unauthorized: You can only update your own artworks" ∧
      (delete_artwork extractTok verifyTok true db auth_header artwork_id).1
        ≠ Except.error
            "Unauthorized: You can only delete your own artworks") := by
  refine ⟨?_, ?_, ?_⟩
  · intro hart hadm hne
    constructor
    · simp only [update_artwork, hauth, hrow]
      rw [if_neg (by simp)]
      rw [if_pos ⟨hart, hadm, hne⟩]
    · simp only [delete_artwork, hauth, hrow]
      rw [if_neg (by simp)]
      rw [if_pos ⟨hart, hadm, hne⟩]
  · intro heq
    have hnotown : ¬(payload.is_artist = true ∧ payload.is_admin = false ∧
        pyStr row.artist_id ≠ pyStr payload.sub) := by
      rintro ⟨_, _, hne⟩; exact hne heq
    exact ⟨update_after_ownership extractTok verifyTok saveImageUtil db
        auth_header artwork_id data payload row hauth hrow hnotown,
      delete_after_ownership extractTok verifyTok db auth_header artwork_id
        payload row hauth hrow hnotown⟩
  · intro hadm
    have hnotown : ¬(payload.is_artist = true ∧ payload.is_admin = false ∧
        pyStr row.artist_id ≠ pyStr payload.sub) := by
      rintro ⟨_, h2, _⟩; rw [hadm] at h2; cases h2
    exact ⟨update_after_ownership extractTok verifyTok saveImageUtil db
        auth_header artwork_id data payload row hauth hrow hnotown,
      delete_after_ownership extractTok verifyTok db auth_header artwork_id
        payload row hauth hrow hnotown⟩

/-- A sample stored row used by concrete witnesses. -/
def mkRow (i : Int) (img : PyVal) (aid : PyVal) : Row :=
  { id := PyVal.int i, title := PyVal.str "Sunset", artist := PyVal.str "Ann",
    description := PyVal.str "", price := PyVal.int 100, image_url := img,
    dimensions := PyVal.str "", medium := PyVal.str "",
    year := PyVal.str "2020", status := PyVal.str "available",
    artist_id := aid }

/-- C1 witness: artist with subject 7 is denied update and delete of a
record owned by artist 9, with the table unchanged. -/
theorem C1_ownership_check_witness :
    update_artwork (fun _ => some "tok")
        (fun _ => Except.ok ⟨false, true, PyVal.int 7⟩) (fun _ => Option.none)
        true [mkRow 1 PyVal.none (PyVal.int 9)] "hdr" 1
        [("title", PyVal.str "New")]
      = (Except.error "Unauthorized: You can only update your own artworks",
          [mkRow 1 PyVal.none (PyVal.int 9)]) ∧
    delete_artwork (fun _ => some "tok")
        (fun _ => Except.ok ⟨false, true, PyVal.int 7⟩) true
        [mkRow 1 PyVal.none (PyVal.int 9)] "hdr" 1
      = (Except.error "Unauthorized: You can only delete your own artworks",
          [mkRow 1 PyVal.none (PyVal.int 9)]) :=
  (C1_ownership_check (fun _ => some "tok")
      (fun _ => Except.ok ⟨false, true, PyVal.int 7⟩) (fun _ => Option.none)
      [mkRow 1 PyVal.none (PyVal.int 9)] "hdr" 1 [("title", PyVal.str "New")]
      ⟨false, true, PyVal.int 7⟩ (mkRow 1 PyVal.none (PyVal.int 9))
      rfl rfl).1 rfl rfl (by decide)

/-- C4: an authenticated, role-authorized create whose input misses `title`
or `price` (or carries a falsy value there) fails with the validation error
naming the first missing field of the `['title', 'price']` check order, and
the table is unchanged. -/
theorem C4_create_missing_required (extractTok : String → Option String)
    (verifyTok : String → Except String Claims)
    (saveImageUtil : PyVal → Option String) (newId : Int) (db : DB)
    (auth_header : String) (data : Data) (payload : Claims)
    (hauth : authenticate extractTok verifyTok auth_header = Except.ok payload)
    (h : pyTruthy (data.getD "title" PyVal.none) = false ∨
      pyTruthy (data.getD "price" PyVal.none) = false) :
    ∃ f, (f = "title" ∨ f = "price") ∧
      pyTruthy (data.getD f PyVal.none) = false ∧
      create_artwork extractTok verifyTok saveImageUtil true newId db
          auth_header data
        = (Except.error ("Missing required field: " ++ f), db) := by
  by_cases ht : pyTruthy (data.getD "title" PyVal.none) = false
  · exact ⟨"title", Or.inl rfl, ht, by simp [create_artwork, hauth, ht]⟩
  · have hp : pyTruthy (data.getD "price" PyVal.none) = false := by
      rcases h with h | h
      · exact absurd h ht
      · exact h
    have ht2 : pyTruthy (data.getD "title" PyVal.none) = true := by
      cases hb : pyTruthy (data.getD "title" PyVal.none)
      · exact absurd hb ht
      · rfl
    exact ⟨"price", Or.inr rfl, hp,
      by simp [create_artwork, hauth, ht2, hp]⟩

/-- C4 witness: an admin create without a `title` key fails naming `title`
and inserts nothing. -/
theorem C4_create_missing_required_witness :
    ∃ f, (f = "title" ∨ f = "price") ∧
      pyTruthy (Data.getD [("price", PyVal.int 100)] f PyVal.none) = false ∧
      create_artwork (fun _ => some "tok")
          (fun _ => Except.ok ⟨true, false, PyVal.none⟩)
          (fun _ => Option.none) true 5 [] "hdr" [("price", PyVal.int 100)]
        = (Except.error ("Missing required field: " ++ f), []) :=
  C4_create_missing_required (fun _ => some "tok")
    (fun _ => Except.ok ⟨true, false, PyVal.none⟩) (fun _ => Option.none) 5 []
    "hdr" [("price", PyVal.int 100)] ⟨true, false, PyVal.none⟩ rfl
    (Or.inl rfl)

lemma filter_eq_nil_of_false {α : Type} (p : α → Bool) :
    ∀ (l : List α), (∀ r ∈ l, p r = false) → l.filter p = [] := by
  intro l
  induction l with
  | nil => intro _; rfl
  | cons r rs ih =>
    intro h
    rw [List.filter_cons, h r (List.mem_cons_self r rs)]
    exact ih (fun x hx => h x (List.mem_cons_of_mem r hx))

lemma map_eq_self_of_id {α : Type} (f : α → α) :
    ∀ (l : List α), (∀ r ∈ l, f r = r) → l.map f = l := by
  intro l
  induction l with
  | nil => intro _; rfl
  | cons r rs ih =>
    intro h
    rw [List.map_cons, h r (List.mem_cons_self r rs),
      ih (fun x hx => h x (List.mem_cons_of_mem r hx))]

/-- C8: an authorized update that passes the existence and ownership checks
and supplies at least one allowed field, but whose UPDATE changes no row
(every row matching the id is left identical by the SET clause, MySQL's
zero-affected-rows outcome), returns the no-change failure rather than
success, and the table is unchanged. -/
theorem C8_zero_rows_is_failure (extractTok : String → Option String)
    (verifyTok : String → Except String Claims)
    (saveImageUtil : String → Option String) (db : DB) (auth_header : String)
    (artwork_id : Int) (data : Data) (payload : Claims) (row : Row)
    (image_url : Option String)
    (hauth : authenticate extractTok verifyTok auth_header = Except.ok payload)
    (hrow : db.find? (fun r => r.id = PyVal.int artwork_id) = some row)
    (hown : ¬(payload.is_artist = true ∧ payload.is_admin = false ∧
      pyStr row.artist_id ≠ pyStr payload.sub))
    (himg : updateImageStep saveImageUtil data = Except.ok image_url)
    (hne : buildUpdateFields data image_url ≠ [])
    (hzero : ∀ r ∈ db, r.id = PyVal.int artwork_id →
      applyUpdate r (buildUpdateFields data image_url) = r) :
    update_artwork extractTok verifyTok saveImageUtil true db auth_header
        artwork_id data
      = (Except.error "No changes were made to the artwork", db) := by
  have hfilter : db.filter (fun r => r.id = PyVal.int artwork_id ∧
      applyUpdate r (buildUpdateFields data image_url) ≠ r) = [] := by
    apply filter_eq_nil_of_false
    intro r hr
    simp only [decide_eq_false_iff_not]
    rintro ⟨hid, hneq⟩
    exact hneq (hzero r hr hid)
  have hmap : db.map (fun r => if r.id = PyVal.int artwork_id then
      applyUpdate r (buildUpdateFields data image_url) else r) = db := by
    apply map_eq_self_of_id
    intro r hr
    by_cases hid : r.id = PyVal.int artwork_id
    · rw [if_pos hid]; exact hzero r hr hid
    · rw [if_neg hid]
  simp only [update_artwork, hauth, hrow, himg]
  rw [if_neg (by simp), if_neg hown, if_neg hne, hfilter, hmap]
  simp

/-- C8 witness: an admin update that sets `title` to its stored value
matches the row but changes nothing, and is reported as the no-change
failure. -/
theorem C8_zero_rows_is_failure_witness :
    update_artwork (fun _ => some "tok")
        (fun _ => Except.ok ⟨true, false, PyVal.none⟩) (fun _ => Option.none)
        true [mkRow 1 PyVal.none (PyVal.int 9)] "hdr" 1
        [("title", PyVal.str "Sunset")]
      = (Except.error "No changes were made to the artwork",
          [mkRow 1 PyVal.none (PyVal.int 9)]) :=
  C8_zero_rows_is_failure (fun _ => some "tok")
    (fun _ => Except.ok ⟨true, false, PyVal.none⟩) (fun _ => Option.none)
    [mkRow 1 PyVal.none (PyVal.int 9)] "hdr" 1
    [("title", PyVal.str "Sunset")] ⟨true, false, PyVal.none⟩
    (mkRow 1 PyVal.none (PyVal.int 9)) Option.none rfl rfl (by decide) rfl
    (by decide) (by decide)

/-- The external field names of `field_map` (identical to the column
names). -/
def allowedFields : List String := field_map.map Prod.fst

lemma buildBase_map_fst (data : Data) :
    ∀ (fm : List (String × String)) (acc : List (String × PyVal)),
      ((fm.foldl (fun a fd =>
          if data.hasKey fd.1 then a ++ [(fd.2, data.getD fd.1 PyVal.none)]
          else a) acc).map Prod.fst)
        = acc.map Prod.fst
          ++ (fm.filter (fun fd => data.hasKey fd.1)).map Prod.snd := by
  intro fm
  induction fm with
  | nil => intro acc; simp
  | cons fd rest ih =>
    intro acc
    by_cases h : data.hasKey fd.1 = true
    · simp [List.foldl_cons, List.filter_cons, h, ih]
    · simp only [Bool.not_eq_true] at h
      simp [List.foldl_cons, List.filter_cons, h, ih]

lemma dup_filter_snd (p : String → Bool) (l : List String) :
    ((l.map (fun s => (s, s))).filter (fun fd => p fd.1)).map Prod.snd
      = l.filter p := by
  induction l with
  | nil => rfl
  | cons s rest ih => by_cases h : p s <;> simp [List.filter_cons, h, ih]

/-- The columns of the dynamically built SET clause: the allowlisted input
keys that are present, in `field_map` order, plus `image_url` exactly when
the image pipeline produced a truthy path. -/
lemma buildUpdateFields_map_fst (data : Data) (image_url : Option String) :
    (buildUpdateFields data image_url).map Prod.fst
      = allowedFields.filter data.hasKey
        ++ (match image_url with
            | some u => if u ≠ "" then ["image_url"] else []
            | Option.none => []) := by
  have hdup : field_map
      = allowedFields.map (fun s => (s, s)) := rfl
  have hbase : ((field_map.foldl (fun a fd =>
      if data.hasKey fd.1 then a ++ [(fd.2, data.getD fd.1 PyVal.none)]
      else a) []).map Prod.fst)
      = allowedFields.filter data.hasKey := by
    rw [buildBase_map_fst data field_map [], hdup, dup_filter_snd]
    rfl
  unfold buildUpdateFields
  cases image_url with
  | none => simpa using hbase
  | some u =>
    by_cases h : u = ""
    · simp [h, hbase]
    · simp [h, hbase]

lemma setCol_preserves (r : Row) (c : String) (v : PyVal) (h1 : c ≠ "id")
    (h2 : c ≠ "artist_id") :
    (Row.setCol r c v).id = r.id ∧
      (Row.setCol r c v).artist_id = r.artist_id := by
  unfold Row.setCol
  repeat' split
  all_goals simp_all

lemma applyUpdate_preserves (fields : List (String × PyVal))
    (h : ∀ c ∈ fields.map Prod.fst, c ≠ "id" ∧ c ≠ "artist_id") :
    ∀ r : Row, (applyUpdate r fields).id = r.id ∧
      (applyUpdate r fields).artist_id = r.artist_id := by
  induction fields with
  | nil => intro r; exact ⟨rfl, rfl⟩
  | cons fv rest ih =>
    intro r
    have hc := h fv.1 (by simp)
    have hstep := setCol_preserves r fv.1 fv.2 hc.1 hc.2
    have ihr := ih (fun c hcmem => h c (by simp [hcmem]))
      (r.setCol fv.1 fv.2)
    exact ⟨ihr.1.trans hstep.1, ihr.2.trans hstep.2⟩

lemma buildUpdateFields_cols_safe (data : Data) (image_url : Option String) :
    ∀ c ∈ (buildUpdateFields data image_url).map Prod.fst,
      c ≠ "id" ∧ c ≠ "artist_id" := by
  intro c hc
  rw [buildUpdateFields_map_fst] at hc
  rcases List.mem_append.1 hc with h | h
  · have hmem : c ∈ allowedFields := List.mem_of_mem_filter h
    simp [allowedFields, field_map] at hmem
    rcases hmem with h1 | h1 | h1 | h1 | h1 | h1 | h1 | h1 <;> subst h1 <;>
      exact ⟨by decide, by decide⟩
  · have hcu : c = "image_url" := by
      cases image_url with
      | none => simp at h
      | some u =>
        by_cases hu : u = ""
        · simp [hu] at h
        · simp [hu] at h; exact h
    subst hcu
    exact ⟨by decide, by decide⟩

/-- C9: whatever fields the partial input contains, the SET clause built by
`update_artwork` never names the `id` or `artist_id` columns, and the
stored `id` and `artist_id` of every row are identical before and after
any `update_artwork` call — ownership cannot be transferred through
update. -/
theorem C9_update_never_touches_id_or_owner :
    (∀ (data : Data) (image_url : Option String),
      "id" ∉ (buildUpdateFields data image_url).map Prod.fst ∧
      "artist_id" ∉ (buildUpdateFields data image_url).map Prod.fst) ∧
    (∀ (extractTok : String → Option String)
      (verifyTok : String → Except String Claims)
      (saveImageUtil : String → Option String) (connOk : Bool) (db : DB)
      (auth_header : String) (artwork_id : Int) (data : Data),
      ((update_artwork extractTok verifyTok saveImageUtil connOk db
          auth_header artwork_id data).2).map (fun r => (r.id, r.artist_id))
        = db.map (fun r => (r.id, r.artist_id))) := by
  constructor
  · intro data image_url
    refine ⟨fun hmem => ?_, fun hmem => ?_⟩
    · exact (buildUpdateFields_cols_safe data image_url _ hmem).1 rfl
    · exact (buildUpdateFields_cols_safe data image_url _ hmem).2 rfl
  · intro extractTok verifyTok saveImageUtil connOk db auth_header
      artwork_id data
    have hsnd : (update_artwork extractTok verifyTok saveImageUtil connOk db
        auth_header artwork_id data).2 = db ∨
        ∃ image_url, (update_artwork extractTok verifyTok saveImageUtil connOk
          db auth_header artwork_id data).2
          = db.map (fun r => if r.id = PyVal.int artwork_id then
              applyUpdate r (buildUpdateFields data image_url) else r) := by
      unfold update_artwork
      cases authenticate extractTok verifyTok auth_header with
      | error e => exact Or.inl rfl
      | ok payload =>
        simp only []
        by_cases hc : connOk = false
        · rw [if_pos hc]; exact Or.inl rfl
        · rw [if_neg hc]
          cases db.find? (fun r => r.id = PyVal.int artwork_id) with
          | none => exact Or.inl rfl
          | some row =>
            simp only []
            split
            · exact Or.inl rfl
            · cases himg : updateImageStep saveImageUtil data with
              | error e => exact Or.inl rfl
              | ok image_url =>
                simp only []
                split
                · exact Or.inl rfl
                · split
                  · exact Or.inr ⟨image_url, rfl⟩
                  · exact Or.inr ⟨image_url, rfl⟩
    rcases hsnd with h | ⟨image_url, h⟩
    · rw [h]
    · rw [h, List.map_map]
      apply List.map_congr_left
      intro r _
      by_cases hid : r.id = PyVal.int artwork_id
      · have hp := applyUpdate_preserves (buildUpdateFields data image_url)
          (buildUpdateFields_cols_safe data image_url) r
        simp [Function.comp, hid, hp.1, hp.2]
      · simp [Function.comp, hid]

/-- C2 counterexample: the claim that an input key `image_url` causes the
stored `image_url` column to be updated is false — `field_map` has no
`image_url` entry, so an authorized admin update whose input holds only
`image_url` builds an empty SET clause, fails with the no-fields error, and
leaves the stored column untouched. -/
theorem C2_counterexample :
    update_artwork (fun _ => some "tok")
        (fun _ => Except.ok ⟨true, false, PyVal.none⟩) (fun _ => Option.none)
        true [mkRow 1 (PyVal.str "/static/uploads/old.jpg") (PyVal.int 9)]
        "hdr" 1 [("image_url", PyVal.str "/static/uploads/new.jpg")]
      = (Except.error "No fields provided for update",
          [mkRow 1 (PyVal.str "/static/uploads/old.jpg") (PyVal.int 9)]) :=
  rfl

/-- C2 (amended): the SET clause contains exactly the allowlisted fields
(title, artist, description, price, dimensions, medium, year, status —
`image_url` is not in the allowlist) that are present in the partial input,
plus `image_url` exactly when the image pipeline stored a new file; an
input key `image_url` is ignored, so an authorized update carrying only
that key fails with the no-fields error and writes nothing. -/
theorem C2_update_field_allowlist :
    (∀ (data : Data) (image_url : Option String),
      (buildUpdateFields data image_url).map Prod.fst
        = allowedFields.filter data.hasKey
          ++ (match image_url with
              | some u => if u ≠ "" then ["image_url"] else []
              | Option.none => [])) ∧
    (∀ (extractTok : String → Option String)
      (verifyTok : String → Except String Claims)
      (saveImageUtil : String → Option String) (db : DB)
      (auth_header : String) (artwork_id : Int) (data : Data)
      (payload : Claims) (row : Row),
      authenticate extractTok verifyTok auth_header = Except.ok payload →
      db.find? (fun r => r.id = PyVal.int artwork_id) = some row →
      ¬(payload.is_artist = true ∧ payload.is_admin = false ∧
        pyStr row.artist_id ≠ pyStr payload.sub) →
      data.hasKey "image_url" = true →
      (∀ f ∈ allowedFields, data.hasKey f = false) →
      pyTruthy (data.getD "image" PyVal.none) = false →
      update_artwork extractTok verifyTok saveImageUtil true db auth_header
          artwork_id data
        = (Except.error "No fields provided for update", db)) := by
  constructor
  · exact buildUpdateFields_map_fst
  · intro extractTok verifyTok saveImageUtil db auth_header artwork_id data
      payload row hauth hrow hown _ hkeys himage
    have himg : updateImageStep saveImageUtil data = Except.ok Option.none := by
      simp [updateImageStep, himage]
    have hfields : buildUpdateFields data Option.none = [] := by
      have hfst := buildUpdateFields_map_fst data Option.none
      have hfilter : allowedFields.filter data.hasKey = [] :=
        filter_eq_nil_of_false _ _ hkeys
      rw [hfilter] at hfst
      simp only [List.append_nil] at hfst
      exact List.map_eq_nil_iff.1 hfst
    simp only [update_artwork, hauth, hrow, himg]
    rw [if_neg (by simp), if_neg hown, if_pos hfields]

/-- C2 witness: the owning artist updates with an input holding only the
`image_url` key; the call fails with the no-fields error and the table is
unchanged. -/
theorem C2_update_field_allowlist_witness :
    update_artwork (fun _ => some "tok")
        (fun _ => Except.ok ⟨false, true, PyVal.int 9⟩) (fun _ => Option.none)
        true [mkRow 1 (PyVal.str "/static/uploads/old.jpg") (PyVal.int 9)]
        "hdr" 1 [("image_url", PyVal.str "data:image/png;base64,AAAA")]
      = (Except.error "No fields provided for update",
          [mkRow 1 (PyVal.str "/static/uploads/old.jpg") (PyVal.int 9)]) :=
  C2_update_field_allowlist.2 (fun _ => some "tok")
    (fun _ => Except.ok ⟨false, true, PyVal.int 9⟩) (fun _ => Option.none)
    [mkRow 1 (PyVal.str "/static/uploads/old.jpg") (PyVal.int 9)] "hdr" 1
    [("image_url", PyVal.str "data:image/png;base64,AAAA")]
    ⟨false, true, PyVal.int 9⟩
    (mkRow 1 (PyVal.str "/static/uploads/old.jpg") (PyVal.int 9)) rfl rfl
    (by decide) rfl (by decide) rfl

/-- C9 witness: an admin update whose input smuggles an `artist_id` key
(and a title change) leaves every stored row's `id` and `artist_id`
exactly as they were. -/
theorem C9_update_never_touches_id_or_owner_witness :
    ((update_artwork (fun _ => some "tok")
        (fun _ => Except.ok ⟨true, false, PyVal.none⟩) (fun _ => Option.none)
        true [mkRow 1 PyVal.none (PyVal.int 9)] "hdr" 1
        [("title", PyVal.str "New"), ("artist_id", PyVal.int 5),
          ("id", PyVal.int 3)]).2).map (fun r => (r.id, r.artist_id))
      = ([mkRow 1 PyVal.none (PyVal.int 9)] : DB).map
          (fun r => (r.id, r.artist_id)) :=
  C9_update_never_touches_id_or_owner.2 (fun _ => some "tok")
    (fun _ => Except.ok ⟨true, false, PyVal.none⟩) (fun _ => Option.none)
    true [mkRow 1 PyVal.none (PyVal.int 9)] "hdr" 1
    [("title", PyVal.str "New"), ("artist_id", PyVal.int 5),
      ("id", PyVal.int 3)]

/-- C7: the module's base64 image store is total (every Python exception
path returns `None`): without the `data:` marker it returns `None`; when
the extracted body fails to decode it returns `None`; every non-`None`
result is `/static/uploads/artwork_<timestamp>_<8-char-id>.<format>`; and
when the string carries no `data:image/` header the format defaults to
`jpg`. -/
theorem C7_save_image_total_shape (b64decode : String → Option (List Nat))
    (timestamp uuid4 : String) (write_ok : Bool) (base64_data : String) :
    (startswith base64_data "data:" = false →
      save_image_from_base64 b64decode timestamp uuid4 write_ok base64_data
        = Option.none) ∧
    (∀ fmt body, parseDataUri base64_data = some (fmt, body) →
      b64decode body = Option.none →
      save_image_from_base64 b64decode timestamp uuid4 write_ok base64_data
        = Option.none) ∧
    (∀ p, save_image_from_base64 b64decode timestamp uuid4 write_ok
        base64_data = some p →
      ∃ fmt, p = "/static/uploads/artwork_" ++ timestamp ++ "_" ++
        uuid4.take 8 ++ "." ++ fmt) ∧
    (containsSubstr base64_data "data:image/" = false →
      save_image_from_base64 b64decode timestamp uuid4 write_ok base64_data
        = Option.none ∨
      save_image_from_base64 b64decode timestamp uuid4 write_ok base64_data
        = some ("/static/uploads/artwork_" ++ timestamp ++ "_" ++
            uuid4.take 8 ++ "." ++ "jpg")) := by
  refine ⟨?_, ?_, ?_, ?_⟩
  · intro h
    simp [save_image_from_base64, h]
  · intro fmt body hparse hdec
    by_cases hsw : startswith base64_data "data:" = false
    · simp [save_image_from_base64, hsw]
    · have hsw2 : startswith base64_data "data:" = true := by
        revert hsw; cases startswith base64_data "data:" <;> simp
      simp [save_image_from_base64, hsw2, hparse, hdec]
  · intro p hp
    unfold save_image_from_base64 at hp
    split at hp
    · cases hp
    · split at hp
      · cases hp
      · split at hp
        · cases hp
        · split at hp
          · exact ⟨_, (Option.some.inj hp).symm⟩
          · cases hp
  · intro hmarker
    have hparse : parseDataUri base64_data = some ("jpg", base64_data) := by
      simp [parseDataUri, hmarker]
    by_cases hsw : startswith base64_data "data:" = false
    · exact Or.inl (by simp [save_image_from_base64, hsw])
    · have hsw2 : startswith base64_data "data:" = true := by
        revert hsw; cases startswith base64_data "data:" <;> simp
      cases hdec : b64decode base64_data with
      | none =>
        exact Or.inl (by simp [save_image_from_base64, hsw2, hparse, hdec])
      | some bytes =>
        by_cases hw : write_ok = true
        · exact Or.inr
            (by simp [save_image_from_base64, hsw2, hparse, hdec, hw])
        · exact Or.inl
            (by simp [save_image_from_base64, hsw2, hparse, hdec, hw])

/-- C7 witness: a plain (non-data-URI) string is rejected with `None`, and
a well-formed png payload yields exactly the generated uploads path. -/
theorem C7_save_image_total_shape_witness :
    save_image_from_base64 (fun _ => some [0]) "20240101000000" "abcdef12-34"
        true "ordinary text"
      = Option.none ∧
    (∃ fmt, "/static/uploads/artwork_20240101000000_abcdef12.png"
      = "/static/uploads/artwork_" ++ "20240101000000" ++ "_" ++
        ("abcdef12-34" : String).take 8 ++ "." ++ fmt) :=
  ⟨(C7_save_image_total_shape (fun _ => some [0]) "20240101000000"
      "abcdef12-34" true "ordinary text").1 rfl,
    (C7_save_image_total_shape (fun _ => some [0]) "20240101000000"
      "abcdef12-34" true "data:image/png;base64,AAAA").2.2.1
      "/static/uploads/artwork_20240101000000_abcdef12.png" rfl⟩

/-- C10: `get_all_artworks` is read-only — for every connection outcome and
every table state the table after the call is exactly the table before it;
by contrast `get_artwork` on a legacy inline payload does rewrite the
stored row (lazy migration), shown at a concrete state. -/
theorem C10_get_all_artworks_readonly :
    (∀ (connOk : Bool) (db : DB), (get_all_artworks connOk db).2 = db) ∧
    (get_artwork (fun _ => some [0]) "20240101000000" "abcdef12" true true
        true [mkRow 1 (PyVal.str "data:image/png;base64,AAAA") (PyVal.int 9)]
        1).2
      ≠ [mkRow 1 (PyVal.str "data:image/png;base64,AAAA") (PyVal.int 9)] := by
  constructor
  · intro connOk db
    unfold get_all_artworks
    by_cases h : connOk = false
    · rw [if_pos h]
    · rw [if_neg h]
      cases h2 : formatAll db <;> simp only [h2]
  · decide

lemma save_image_some (b64decode : String → Option (List Nat))
    (timestamp uuid4 : String) (write_ok : Bool) (base64_data p : String)
    (h : save_image_from_base64 b64decode timestamp uuid4 write_ok base64_data
      = some p) :
    ∃ fmt, p = "/static/uploads/artwork_" ++ timestamp ++ "_" ++
      uuid4.take 8 ++ "." ++ fmt := by
  unfold save_image_from_base64 at h
  split at h
  · cases h
  · split at h
    · cases h
    · split at h
      · cases h
      · split at h
        · exact ⟨_, (Option.some.inj h).symm⟩
        · cases h

lemma save_image_some_prefix (b64decode : String → Option (List Nat))
    (timestamp uuid4 : String) (write_ok : Bool) (base64_data p : String)
    (h : save_image_from_base64 b64decode timestamp uuid4 write_ok base64_data
      = some p) :
    startswith p "/static/uploads/" = true ∧
      startswith p "/static/" = true := by
  obtain ⟨fmt, hfmt⟩ :=
    save_image_some b64decode timestamp uuid4 write_ok base64_data p h
  rw [hfmt]
  constructor
  · apply startswith_mono
    apply startswith_mono
    apply startswith_mono
    apply startswith_mono
    apply startswith_mono
    decide
  · apply startswith_mono
    apply startswith_mono
    apply startswith_mono
    apply startswith_mono
    apply startswith_mono
    decide

lemma startswith_uploads_ne_empty (p : String)
    (h : startswith p "/static/uploads/" = true) : p ≠ "" := by
  intro he
  subst he
  revert h
  decide

lemma formatArtwork_ok_image (r : Row) (a : ArtworkOut)
    (h : formatArtwork r = Except.ok a) :
    pyTruthy a.image_url = false ∨
      ∃ s, a.image_url = PyVal.str s ∧ startswith s "/static/" = true := by
  unfold formatArtwork at h
  by_cases ht : pyTruthy r.image_url = true
  · cases hv : r.image_url with
    | str s =>
      have hts : pyTruthy (PyVal.str s) = true := hv ▸ ht
      rw [hv, if_pos hts] at h
      obtain rfl := Except.ok.inj h
      by_cases hcond : s ≠ "" ∧ startswith s "/static/" = false
      · refine Or.inr ⟨"/static/uploads/" ++ basename s, ?_, ?_⟩
        · simp [normalize_path, hcond]
        · exact startswith_static_uploads (basename s)
      · have hgd : (normalize_path (some s)).getD s = s := by
          simp only [normalize_path, if_neg hcond, Option.getD_some]
        rw [not_and_or] at hcond
        rcases hcond with hs | hsw
        · push_neg at hs
          subst hs
          exact Or.inl (by simp [hgd, pyTruthy])
        · have hsw2 : startswith s "/static/" = true := by
            revert hsw; cases startswith s "/static/" <;> simp
          exact Or.inr ⟨s, by simp [hgd], hsw2⟩
    | none => rw [hv] at ht; simp [pyTruthy] at ht
    | int n =>
      have hts : pyTruthy (PyVal.int n) = true := hv ▸ ht
      rw [hv, if_pos hts] at h
      exact absurd h (by simp)
    | bool b =>
      have hts : pyTruthy (PyVal.bool b) = true := hv ▸ ht
      rw [hv, if_pos hts] at h
      exact absurd h (by simp)
  · rw [if_neg ht] at h
    obtain rfl := Except.ok.inj h
    have ht2 : pyTruthy r.image_url = false := by
      revert ht; cases pyTruthy r.image_url <;> simp
    exact Or.inl (by simp [rowToOut, ht2])

lemma formatAll_ok :
    ∀ (db : DB) (arts : List ArtworkOut), formatAll db = Except.ok arts →
      ∀ a ∈ arts, pyTruthy a.image_url = false ∨
        ∃ s, a.image_url = PyVal.str s ∧ startswith s "/static/" = true := by
  intro db
  induction db with
  | nil =>
    intro arts h a ha
    obtain rfl := Except.ok.inj h
    cases ha
  | cons r rs ih =>
    intro arts h a ha
    unfold formatAll at h
    cases hf : formatArtwork r with
    | error e => rw [hf] at h; cases h
    | ok a0 =>
      rw [hf] at h
      cases hrest : formatAll rs with
      | error e => rw [hrest] at h; cases h
      | ok rest =>
        rw [hrest] at h
        obtain rfl := Except.ok.inj h
        rcases List.mem_cons.1 ha with rfl | hmem
        · exact formatArtwork_ok_image r a hf
        · exact ih rest hrest a hmem

/-- C5 counterexample: the claim as stated is false twice over at concrete
states — `get_all_artworks` returns a stored `/static/other.jpg` unchanged,
which does not begin with `/static/uploads/`; and `get_artwork` on a stored
`base64,`-prefixed payload (whose conversion fails, since the module's
saver only accepts `data:`) returns the raw inline payload itself. -/
theorem C5_counterexample :
    ((get_all_artworks true
        [mkRow 1 (PyVal.str "/static/other.jpg") (PyVal.int 9)]).1
      = Except.ok
          [{ rowToOut (mkRow 1 (PyVal.str "/static/other.jpg") (PyVal.int 9))
              with image_url := PyVal.str "/static/other.jpg" }] ∧
      startswith "/static/other.jpg" "/static/uploads/" = false) ∧
    ((get_artwork (fun _ => some [0]) "20240101000000" "abcdef12" true true
        true [mkRow 1 (PyVal.str "base64,AAAA") (PyVal.int 9)] 1).1
      = Except.ok
          { rowToOut (mkRow 1 (PyVal.str "base64,AAAA") (PyVal.int 9)) with
              image_url := PyVal.str "base64,AAAA" } ∧
      startswith "base64,AAAA" "base64," = true ∧
      startswith "base64,AAAA" "/static/uploads/" = false) :=
  ⟨⟨rfl, by decide⟩, rfl, by decide, by decide⟩

/-- C5 (amended): every `image_url` returned by `get_all_artworks` is falsy
(null/empty) or a string beginning with `/static/` (not necessarily
`/static/uploads/`); `get_artwork` returns the same except that a stored
inline payload (`data:` or `base64,` prefix) whose conversion returns no
path is handed back raw; and a raw inline payload is never persisted — a
`get_artwork` call only ever writes rows whose new `image_url` begins with
`/static/uploads/`. -/
theorem C5_image_url_form :
    (∀ (connOk : Bool) (db : DB) (arts : List ArtworkOut),
      (get_all_artworks connOk db).1 = Except.ok arts →
      ∀ a ∈ arts, pyTruthy a.image_url = false ∨
        ∃ s, a.image_url = PyVal.str s ∧ startswith s "/static/" = true) ∧
    (∀ (b64decode : String → Option (List Nat)) (timestamp uuid4 : String)
      (write_ok connOk connOk2 : Bool) (db : DB) (artwork_id : Int)
      (a : ArtworkOut),
      (get_artwork b64decode timestamp uuid4 write_ok connOk connOk2 db
        artwork_id).1 = Except.ok a →
      pyTruthy a.image_url = false ∨
        ∃ s, a.image_url = PyVal.str s ∧
          (startswith s "/static/" = true ∨
            ((startswith s "data:" = true ∨ startswith s "base64," = true) ∧
              save_image_from_base64 b64decode timestamp uuid4 write_ok s
                = Option.none))) ∧
    (∀ (b64decode : String → Option (List Nat)) (timestamp uuid4 : String)
      (write_ok connOk connOk2 : Bool) (db : DB) (artwork_id : Int),
      ∀ r2 ∈ (get_artwork b64decode timestamp uuid4 write_ok connOk connOk2
        db artwork_id).2, r2 ∈ db ∨
        ∃ p, r2.image_url = PyVal.str p ∧
          startswith p "/static/uploads/" = true) := by
  refine ⟨?_, ?_, ?_⟩
  · intro connOk db arts h
    by_cases hc : connOk = false
    · simp [get_all_artworks, hc] at h
    · cases hf : formatAll db with
      | error e => simp [get_all_artworks, hc, hf] at h
      | ok arts0 =>
        have h2 : arts0 = arts := by
          have := h
          simp [get_all_artworks, hc, hf] at this
          exact this
        subst h2
        exact formatAll_ok db arts0 hf
  · intro b64decode timestamp uuid4 write_ok connOk connOk2 db artwork_id a h
    by_cases hc : connOk = false
    · simp [get_artwork, hc] at h
    · cases hfind : db.find? (fun r => r.id = PyVal.int artwork_id) with
      | none => simp [get_artwork, hc, hfind] at h
      | some r =>
        by_cases ht : pyTruthy r.image_url = true
        · cases hv : r.image_url with
          | str s =>
            have hts : pyTruthy (PyVal.str s) = true := hv ▸ ht
            by_cases hsw :
                (startswith s "data:" || startswith s "base64,") = true
            · cases hsave :
                  save_image_from_base64 b64decode timestamp uuid4 write_ok s
                  with
              | some p =>
                have hpre := save_image_some_prefix b64decode timestamp uuid4
                  write_ok s p hsave
                have hne : p ≠ "" := startswith_uploads_ne_empty p hpre.1
                simp [get_artwork, hc, hfind, hv, hts, hsw, hsave, hne] at h
                subst h
                exact Or.inr ⟨p, by simp, Or.inl hpre.2⟩
              | none =>
                simp [get_artwork, hc, hfind, hv, hts, hsw, hsave] at h
                subst h
                exact Or.inr ⟨s, by simp [rowToOut, hv],
                  Or.inr ⟨by rw [Bool.or_eq_true] at hsw; exact hsw, hsave⟩⟩
            · have hsw2 :
                  (startswith s "data:" || startswith s "base64,") = false := by
                revert hsw
                cases startswith s "data:" || startswith s "base64," <;> simp
              by_cases hst : startswith s "/static/" = false
              · simp [get_artwork, hc, hfind, hv, hts, hsw2, hst] at h
                subst h
                exact Or.inr ⟨"/static/uploads/" ++ basename s, by simp,
                  Or.inl (startswith_static_uploads (basename s))⟩
              · have hst2 : startswith s "/static/" = true := by
                  revert hst; cases startswith s "/static/" <;> simp
                simp [get_artwork, hc, hfind, hv, hts, hsw2, hst2] at h
                subst h
                exact Or.inr ⟨s, by simp [rowToOut, hv], Or.inl hst2⟩
          | none => rw [hv] at ht; simp [pyTruthy] at ht
          | int n =>
            have hts : pyTruthy (PyVal.int n) = true := hv ▸ ht
            simp [get_artwork, hc, hfind, hv, hts] at h
          | bool b =>
            have hts : pyTruthy (PyVal.bool b) = true := hv ▸ ht
            simp [get_artwork, hc, hfind, hv, hts] at h
        · have ht2 : pyTruthy r.image_url = false := by
            revert ht; cases pyTruthy r.image_url <;> simp
          simp [get_artwork, hc, hfind, ht2] at h
          subst h
          exact Or.inl (by simp [rowToOut, ht2])
  · intro b64decode timestamp uuid4 write_ok connOk connOk2 db artwork_id r2
      hr2
    by_cases hc : connOk = false
    · rw [show (get_artwork b64decode timestamp uuid4 write_ok connOk connOk2
          db artwork_id).2 = db by simp [get_artwork, hc]] at hr2
      exact Or.inl hr2
    · cases hfind : db.find? (fun r => r.id = PyVal.int artwork_id) with
      | none =>
        rw [show (get_artwork b64decode timestamp uuid4 write_ok connOk
            connOk2 db artwork_id).2 = db by
          simp [get_artwork, hc, hfind]] at hr2
        exact Or.inl hr2
      | some r =>
        by_cases ht : pyTruthy r.image_url = true
        · cases hv : r.image_url with
          | str s =>
            have hts : pyTruthy (PyVal.str s) = true := hv ▸ ht
            by_cases hsw :
                (startswith s "data:" || startswith s "base64,") = true
            · cases hsave :
                  save_image_from_base64 b64decode timestamp uuid4 write_ok s
                  with
              | some p =>
                have hpre := save_image_some_prefix b64decode timestamp uuid4
                  write_ok s p hsave
                have hne : p ≠ "" := startswith_uploads_ne_empty p hpre.1
                rw [show (get_artwork b64decode timestamp uuid4 write_ok
                    connOk connOk2 db artwork_id).2
                    = update_artwork_image connOk2 db r.id p by
                  simp [get_artwork, hc, hfind, hv, hts, hsw, hsave, hne]]
                  at hr2
                unfold update_artwork_image at hr2
                by_cases hc2 : connOk2 = false
                · rw [if_pos hc2] at hr2
                  exact Or.inl hr2
                · rw [if_neg hc2] at hr2
                  obtain ⟨r0, hr0, rfl⟩ := List.mem_map.1 hr2
                  by_cases hid : r0.id = r.id
                  · exact Or.inr ⟨p, by simp [hid], hpre.1⟩
                  · rw [if_neg hid]
                    exact Or.inl hr0
              | none =>
                rw [show (get_artwork b64decode timestamp uuid4 write_ok
                    connOk connOk2 db artwork_id).2 = db by
                  simp [get_artwork, hc, hfind, hv, hts, hsw, hsave]] at hr2
                exact Or.inl hr2
            · have hsw2 :
                  (startswith s "data:" || startswith s "base64,") = false := by
                revert hsw
                cases startswith s "data:" || startswith s "base64," <;> simp
              rw [show (get_artwork b64decode timestamp uuid4 write_ok connOk
                  connOk2 db artwork_id).2 = db by
                by_cases hst : startswith s "/static/" = false
                · simp [get_artwork, hc, hfind, hv, hts, hsw2, hst]
                · have hst2 : startswith s "/static/" = true := by
                    revert hst; cases startswith s "/static/" <;> simp
                  simp [get_artwork, hc, hfind, hv, hts, hsw2, hst2]] at hr2
              exact Or.inl hr2
          | none => rw [hv] at ht; simp [pyTruthy] at ht
          | int n =>
            have hts : pyTruthy (PyVal.int n) = true := hv ▸ ht
            rw [show (get_artwork b64decode timestamp uuid4 write_ok connOk
                connOk2 db artwork_id).2 = db by
              simp [get_artwork, hc, hfind, hv, hts]] at hr2
            exact Or.inl hr2
          | bool b =>
            have hts : pyTruthy (PyVal.bool b) = true := hv ▸ ht
            rw [show (get_artwork b64decode timestamp uuid4 write_ok connOk
                connOk2 db artwork_id).2 = db by
              simp [get_artwork, hc, hfind, hv, hts]] at hr2
            exact Or.inl hr2
        · have ht2 : pyTruthy r.image_url = false := by
            revert ht; cases pyTruthy r.image_url <;> simp
          rw [show (get_artwork b64decode timestamp uuid4 write_ok connOk
              connOk2 db artwork_id).2 = db by
            simp [get_artwork, hc, hfind, ht2]] at hr2
          exact Or.inl hr2

/-- C5 witness: at a concrete state whose stored path lacks the prefix, the
returned record's `image_url` is falsy or a `/static/`-prefixed string. -/
theorem C5_image_url_form_witness :
    pyTruthy ({ rowToOut (mkRow 1 (PyVal.str "pic.jpg") (PyVal.int 9)) with
        image_url := PyVal.str "/static/uploads/pic.jpg" } :
          ArtworkOut).image_url = false ∨
    ∃ s, ({ rowToOut (mkRow 1 (PyVal.str "pic.jpg") (PyVal.int 9)) with
        image_url := PyVal.str "/static/uploads/pic.jpg" } :
          ArtworkOut).image_url = PyVal.str s ∧
      startswith s "/static/" = true :=
  C5_image_url_form.1 true [mkRow 1 (PyVal.str "pic.jpg") (PyVal.int 9)]
    [{ rowToOut (mkRow 1 (PyVal.str "pic.jpg") (PyVal.int 9)) with
        image_url := PyVal.str "/static/uploads/pic.jpg" }] rfl
    { rowToOut (mkRow 1 (PyVal.str "pic.jpg") (PyVal.int 9)) with
        image_url := PyVal.str "/static/uploads/pic.jpg" }
    (List.mem_cons_self _ _)

end Artwork
